import Mathlib

/-!
Verification development for the PIVOT prediction-market backend
(`src/backend/index.py` and `src/backend/deploy.py`).

The Python source is shallowly embedded: pure fragments become Lean
functions, the mutable `active_sessions` dict becomes an association
list threaded through the workflow functions, Python `float` literals
become exact rationals, and `datetime` values are modelled at day
granularity as proleptic-Gregorian ordinals (`Int`, day 1 = 0001-01-01,
matching Python's `date.toordinal`).  Code paths that call the external
OpenAI / Gemini text-generation collaborators are modelled by passing
the collaborator's reply (or `none` for "unavailable / call failed") as
an explicit parameter; the deterministic fallback paths are embedded in
full.  String operations are restricted to the ASCII fragment the
claims exercise (Python `str.lower` / `str.strip` also handle further
Unicode whitespace and case mappings).
-/

/-! ## Python-style string primitives -/

/-- Characters treated as whitespace by Python `str.strip` (ASCII fragment). -/
def isPyWs (c : Char) : Bool :=
  c = ' ' || c = '\t' || c = '\n' || c = '\r' || c = '\x0b' || c = '\x0c'

/-- `isPre n h` : `n` is a prefix of `h` (used to model substring search). -/
def isPre : List Char → List Char → Bool
  | [], _ => true
  | _ :: _, [] => false
  | a :: n, b :: h => a == b && isPre n h

/-- `subList n h` : `n` occurs as a contiguous block inside `h`
(Python's `n in h` for strings). -/
def subList (n : List Char) : List Char → Bool
  | [] => isPre n []
  | c :: t => isPre n (c :: t) || subList n t

/-- Remove a trailing run of characters satisfying `p`. -/
def dropTrail (p : Char → Bool) (l : List Char) : List Char :=
  (l.reverse.dropWhile p).reverse

/-- Python `str.strip()` on the character list. -/
def pyStripL (l : List Char) : List Char :=
  dropTrail isPyWs (l.dropWhile isPyWs)

/-- Python `str.strip()`. -/
def pyStripS (s : String) : String := ⟨pyStripL s.data⟩

/-- Python `str.lower()` (ASCII fragment). -/
def pyLowerS (s : String) : String := ⟨s.data.map Char.toLower⟩

/-- Python `needle in hay` for strings. -/
def pyContains (needle hay : String) : Bool := subList needle.data hay.data

/-! ### Lemmas about substring search -/

theorem subList_of_isPre {n l : List Char} (h : isPre n l = true) :
    subList n l = true := by
  cases l with
  | nil => simpa [subList] using h
  | cons c t => simp [subList, h]

theorem isPre_append {n : List Char} :
    ∀ {h : List Char}, isPre n h = true → ∀ b, isPre n (h ++ b) = true := by
  induction n with
  | nil => intro h _ b; simp [isPre]
  | cons a n ih =>
    intro h hp b
    cases h with
    | nil => simp [isPre] at hp
    | cons c t =>
      simp only [isPre, Bool.and_eq_true, beq_iff_eq] at hp
      simp [isPre, hp.1, ih hp.2]

theorem subList_cons {n t : List Char} (h : subList n t = true) (c : Char) :
    subList n (c :: t) = true := by
  simp [subList, h]

theorem subList_append_right {n : List Char} :
    ∀ {m : List Char}, subList n m = true → ∀ b, subList n (m ++ b) = true := by
  intro m
  induction m with
  | nil =>
    intro h b
    simp only [subList] at h
    exact subList_of_isPre (isPre_append h b)
  | cons c t ih =>
    intro h b
    simp only [subList, Bool.or_eq_true] at h
    cases h with
    | inl hp => exact subList_of_isPre (isPre_append hp b)
    | inr hs => simpa [subList] using Or.inr (ih hs b)

theorem subList_append_left {n m : List Char} (h : subList n m = true) :
    ∀ a, subList n (a ++ m) = true := by
  intro a
  induction a with
  | nil => simpa using h
  | cons c t ih => simpa [subList] using Or.inr ih

theorem subList_append_mid {n m : List Char} (h : subList n m = true)
    (a b : List Char) : subList n (a ++ m ++ b) = true := by
  have h1 := subList_append_right h b
  have h2 := subList_append_left h1 a
  simpa [List.append_assoc] using h2

/-- `pyStripL l` sits inside `l` between two (whitespace) blocks. -/
theorem pyStripL_decomp (l : List Char) :
    ∃ a b, l = a ++ pyStripL l ++ b := by
  refine ⟨l.takeWhile isPyWs, ((l.dropWhile isPyWs).reverse.takeWhile isPyWs).reverse, ?_⟩
  have h1 : l = l.takeWhile isPyWs ++ l.dropWhile isPyWs :=
    (List.takeWhile_append_dropWhile isPyWs l).symm
  have h2 : l.dropWhile isPyWs =
      pyStripL l ++ ((l.dropWhile isPyWs).reverse.takeWhile isPyWs).reverse := by
    have h3 : (l.dropWhile isPyWs).reverse =
        (l.dropWhile isPyWs).reverse.takeWhile isPyWs ++
          (l.dropWhile isPyWs).reverse.dropWhile isPyWs :=
      (List.takeWhile_append_dropWhile isPyWs (l.dropWhile isPyWs).reverse).symm
    calc l.dropWhile isPyWs = (l.dropWhile isPyWs).reverse.reverse := by
          rw [List.reverse_reverse]
      _ = ((l.dropWhile isPyWs).reverse.takeWhile isPyWs ++
            (l.dropWhile isPyWs).reverse.dropWhile isPyWs).reverse := by rw [← h3]
      _ = pyStripL l ++ ((l.dropWhile isPyWs).reverse.takeWhile isPyWs).reverse := by
          rw [List.reverse_append]; rfl
  calc l = l.takeWhile isPyWs ++ l.dropWhile isPyWs := h1
    _ = l.takeWhile isPyWs ++ (pyStripL l ++
          ((l.dropWhile isPyWs).reverse.takeWhile isPyWs).reverse) := by rw [← h2]
    _ = _ := by rw [List.append_assoc]

/-- A substring of the lowercased, stripped string is a substring of the
lowercased original. -/
theorem pyContains_lower_strip {w r : String}
    (h : pyContains w (pyLowerS (pyStripS r)) = true) :
    pyContains w (pyLowerS r) = true := by
  obtain ⟨a, b, hdec⟩ := pyStripL_decomp r.data
  have hsub : subList w.data ((pyStripL r.data).map Char.toLower) = true := h
  show subList w.data (r.data.map Char.toLower) = true
  rw [hdec, List.map_append, List.map_append]
  exact subList_append_mid hsub _ _

/-! ## Calendar arithmetic (Python `datetime` at day granularity) -/

/-- Gregorian leap year, as used by Python `calendar` / `datetime`. -/
def isLeapYear (y : Nat) : Bool :=
  y % 4 = 0 && (y % 100 ≠ 0 || y % 400 = 0)

/-- Length of month `m` in year `y`. -/
def daysInMonth (y m : Nat) : Nat :=
  if m = 2 then (if isLeapYear y then 29 else 28)
  else if m = 4 || m = 6 || m = 9 || m = 11 then 30
  else 31

/-- Days in year `y` strictly before month `m`. -/
def daysBeforeMonth (y m : Nat) : Nat :=
  (List.range (m - 1)).foldl (fun acc i => acc + daysInMonth y (i + 1)) 0

/-- Python `date(y, m, d).toordinal()`: day 1 is 0001-01-01 (proleptic
Gregorian). -/
def toOrdinal (y m d : Nat) : Int :=
  ((365 * (y - 1) + (y - 1) / 4 - (y - 1) / 100 + (y - 1) / 400
    + daysBeforeMonth y m + d : Nat) : Int)

/-- Largest ordinal representable by Python `datetime`
(`date(9999, 12, 31).toordinal()`). -/
def maxOrdinal : Int := 3652059

/-- Inverse of `toOrdinal` (Hinnant's `civil_from_days` algorithm),
returning `(year, month, day)`. -/
def fromOrdinal (n : Int) : Nat × Nat × Nat :=
  let z : Nat := (n + 305).toNat
  let era := z / 146097
  let doe := z % 146097
  let yoe := (doe - doe / 1460 + doe / 36524 - doe / 146096) / 365
  let y := yoe + era * 400
  let doy := doe - (365 * yoe + yoe / 4 - yoe / 100)
  let mp := (5 * doy + 2) / 153
  let d := doy - (153 * mp + 2) / 5 + 1
  let m := if mp < 10 then mp + 3 else mp - 9
  if m ≤ 2 then (y + 1, m, d) else (y, m, d)

theorem fromOrdinal_check1 : fromOrdinal (toOrdinal 1970 1 1) = (1970, 1, 1) := by decide

theorem fromOrdinal_check2 : fromOrdinal (toOrdinal 2025 10 12) = (2025, 10, 12) := by decide

theorem fromOrdinal_check3 : fromOrdinal (toOrdinal 2024 2 29) = (2024, 2, 29) := by decide

theorem maxOrdinal_check : toOrdinal 9999 12 31 = maxOrdinal := by decide

/-- Decimal digits of a natural number (fuel-based so that kernel
reduction works). -/
def natToCharsAux : Nat → Nat → List Char
  | 0, _ => []
  | fuel + 1, n =>
    if n < 10 then [Char.ofNat (48 + n)]
    else natToCharsAux fuel (n / 10) ++ [Char.ofNat (48 + n % 10)]

/-- Decimal rendering of a natural number. -/
def natToStr (n : Nat) : String := ⟨natToCharsAux (n + 1) n⟩

/-- Zero-pad to two digits (`strftime` `%d` / `%m`). -/
def pad2 (n : Nat) : String := (if n < 10 then "0" else "") ++ natToStr n

/-- Zero-pad to four digits (`strftime` `%Y`). -/
def pad4 (n : Nat) : String :=
  (if n < 10 then "000" else if n < 100 then "00" else if n < 1000 then "0" else "")
    ++ natToStr n

/-- Capitalised English month names (`strftime` `%B` output). -/
def monthNameOf (m : Nat) : String :=
  match m with
  | 1 => "January" | 2 => "February" | 3 => "March" | 4 => "April"
  | 5 => "May" | 6 => "June" | 7 => "July" | 8 => "August"
  | 9 => "September" | 10 => "October" | 11 => "November" | 12 => "December"
  | _ => ""

/-- `strftime('%Y-%m-%d')` of an ordinal. -/
def formatYMD (n : Int) : String :=
  let (y, m, d) := fromOrdinal n
  pad4 y ++ "-" ++ pad2 m ++ "-" ++ pad2 d

/-- `strftime('%d/%m/%Y')` of an ordinal. -/
def formatDMY (n : Int) : String :=
  let (y, m, d) := fromOrdinal n
  pad2 d ++ "/" ++ pad2 m ++ "/" ++ pad4 y

/-- `strftime('%B %d, %Y')` of an ordinal. -/
def formatBdY (n : Int) : String :=
  let (y, m, d) := fromOrdinal n
  monthNameOf m ++ " " ++ pad2 d ++ ", " ++ pad4 y

/-! ## `datetime.strptime` for the five formats tried by `_parse_date`

CPython's `_strptime` matches `%Y` as exactly four digits, `%m` as
`1[0-2]|0[1-9]|[1-9]` and `%d` as `3[01]|[12]\d|0[1-9]|[1-9]` (one or two
digits, value-checked), matches month names case-insensitively, turns a
literal space in the format into `\s+`, requires the whole string to be
consumed, and raises `ValueError` (caught by `_parse_date`, which then
tries the next format) when the day is out of range for the month or the
year is 0. -/

/-- Digit value of a character, if it is a decimal digit. -/
def getDigit (c : Char) : Option Nat :=
  if c.isDigit then some (c.toNat - 48) else none

/-- One-or-two-digit field (`%m` with `hi = 12`, `%d` with `hi = 31`):
two digits are taken when their value lies in `[1, hi]`, matching the
ordered regex alternation used by `_strptime`. -/
def p2or1 (hi : Nat) : List Char → Option (Nat × List Char)
  | c1 :: c2 :: rest =>
    match getDigit c1, getDigit c2 with
    | some a, some b =>
      let v := 10 * a + b
      if 1 ≤ v ∧ v ≤ hi then some (v, rest)
      else if 1 ≤ a ∧ a ≤ 9 then some (a, c2 :: rest) else none
    | some a, none => if 1 ≤ a ∧ a ≤ 9 then some (a, c2 :: rest) else none
    | none, _ => none
  | [c1] =>
    (getDigit c1).bind fun a => if 1 ≤ a ∧ a ≤ 9 then some (a, []) else none
  | [] => none

/-- Exactly four digits (`%Y`). -/
def pY4 : List Char → Option (Nat × List Char)
  | a :: b :: c :: d :: r =>
    match getDigit a, getDigit b, getDigit c, getDigit d with
    | some x, some y, some z, some w => some (1000 * x + 100 * y + 10 * z + w, r)
    | _, _, _, _ => none
  | _ => none

/-- Exact literal character. -/
def pLit (c : Char) : List Char → Option (List Char)
  | x :: r => if x = c then some r else none
  | [] => none

/-- One or more whitespace characters (a literal space in a `strptime`
format matches `\s+`). -/
def pWs1 : List Char → Option (List Char)
  | c :: r => if isPyWs c then some (r.dropWhile isPyWs) else none
  | [] => none

/-- Case-insensitive month-name prefix from a name table. -/
def pMonthName (tbl : List (String × Nat)) (l : List Char) : Option (Nat × List Char) :=
  match tbl with
  | [] => none
  | (name, n) :: rest =>
    if isPre name.data (l.map Char.toLower) then some (n, l.drop name.length)
    else pMonthName rest l

def monthFullNames : List (String × Nat) :=
  [("january", 1), ("february", 2), ("march", 3), ("april", 4), ("may", 5),
   ("june", 6), ("july", 7), ("august", 8), ("september", 9), ("october", 10),
   ("november", 11), ("december", 12)]

def monthAbbrNames : List (String × Nat) :=
  [("jan", 1), ("feb", 2), ("mar", 3), ("apr", 4), ("may", 5), ("jun", 6),
   ("jul", 7), ("aug", 8), ("sep", 9), ("oct", 10), ("nov", 11), ("dec", 12)]

/-- `datetime(y, m, d)` construction check: year in `[1, 9999]` and day in
range for the month. -/
def mkDate (y m d : Nat) : Option Int :=
  if 1 ≤ y ∧ y ≤ 9999 ∧ 1 ≤ m ∧ m ≤ 12 ∧ 1 ≤ d ∧ d ≤ daysInMonth y m then
    some (toOrdinal y m d)
  else none

/-- `strptime(s, "%Y-%m-%d")`. -/
def pFmtYMD (l : List Char) : Option Int := do
  let (y, r1) ← pY4 l
  let r2 ← pLit '-' r1
  let (m, r3) ← p2or1 12 r2
  let r4 ← pLit '-' r3
  let (d, r5) ← p2or1 31 r4
  if r5 = [] then mkDate y m d else none

/-- `strptime(s, "%B %d, %Y")`. -/
def pFmtBdY (l : List Char) : Option Int := do
  let (m, r1) ← pMonthName monthFullNames l
  let r2 ← pWs1 r1
  let (d, r3) ← p2or1 31 r2
  let r4 ← pLit ',' r3
  let r5 ← pWs1 r4
  let (y, r6) ← pY4 r5
  if r6 = [] then mkDate y m d else none

/-- `strptime(s, "%b %d, %Y")`. -/
def pFmtbdY (l : List Char) : Option Int := do
  let (m, r1) ← pMonthName monthAbbrNames l
  let r2 ← pWs1 r1
  let (d, r3) ← p2or1 31 r2
  let r4 ← pLit ',' r3
  let r5 ← pWs1 r4
  let (y, r6) ← pY4 r5
  if r6 = [] then mkDate y m d else none

/-- `strptime(s, "%m/%d/%Y")`. -/
def pFmtMdY (l : List Char) : Option Int := do
  let (m, r1) ← p2or1 12 l
  let r2 ← pLit '/' r1
  let (d, r3) ← p2or1 31 r2
  let r4 ← pLit '/' r3
  let (y, r5) ← pY4 r4
  if r5 = [] then mkDate y m d else none

/-- `strptime(s, "%d/%m/%Y")`. -/
def pFmtdMY (l : List Char) : Option Int := do
  let (d, r1) ← p2or1 31 l
  let r2 ← pLit '/' r1
  let (m, r3) ← p2or1 12 r2
  let r4 ← pLit '/' r3
  let (y, r5) ← pY4 r4
  if r5 = [] then mkDate y m d else none

/-- The `for fmt in formats` loop of `_parse_date`: the five formats are
tried in source order, first success wins. -/
def strptimeAny (s : String) : Option Int :=
  pFmtYMD s.data <|> pFmtBdY s.data <|> pFmtbdY s.data <|>
    pFmtMdY s.data <|> pFmtdMY s.data

theorem strptimeAny_check1 :
    strptimeAny "2020-01-01" = some (toOrdinal 2020 1 1) := by decide

theorem strptimeAny_check2 :
    strptimeAny "March 5, 2021" = some (toOrdinal 2021 3 5) := by decide

theorem strptimeAny_check3 :
    strptimeAny "15/01/2025" = some (toOrdinal 2025 1 15) := by decide

theorem strptimeAny_check4 :
    strptimeAny "01/02/2025" = some (toOrdinal 2025 1 2) := by decide

theorem strptimeAny_check5 : strptimeAny "banana" = none := by decide

/-! ## `_parse_date` (MarketCreationWorkflow) -/

/-- Outcome of `_parse_date`: a parsed ordinal, `None`, or an uncaught
`OverflowError` from `timedelta` / datetime addition. -/
inductive DateParse where
  | date (ord : Int)
  | nodate
  | overflow
deriving DecidableEq, Repr

/-- First maximal run of digits in the string (`re.search(r'(\d+)', s)`),
as a natural number. -/
def firstNum : List Char → Option Nat
  | [] => none
  | c :: t =>
    if c.isDigit then
      some (((c :: t).takeWhile Char.isDigit).foldl
        (fun acc d => 10 * acc + (d.toNat - 48)) 0)
    else firstNum t

/-- `now + timedelta(days = k)`, with Python's `OverflowError` conditions:
`timedelta` days must not exceed 999999999 and the resulting datetime must
not pass year 9999. -/
def relAdd (now : Int) (k : Nat) : DateParse :=
  if k > 999999999 ∨ now + (k : Int) > maxOrdinal then DateParse.overflow
  else DateParse.date (now + (k : Int))

/-- `MarketCreationWorkflow._parse_date`, at day granularity.  `now` is
`datetime.now()` as an ordinal.  The input is stripped, the five absolute
formats are tried first, then the relative branches: a string containing
`"day"` / `"week"` / `"month"` (case-insensitive) with a digit run maps to
`now + n` / `now + 7n` / `now + 30n` days; a unit word without digits
falls through to the next branch. -/
def parse_date (now : Int) (s : String) : DateParse :=
  let t := pyStripS s
  match strptimeAny t with
  | some d => DateParse.date d
  | none =>
    let low := pyLowerS t
    match (if pyContains "day" low then firstNum t.data else none) with
    | some n => relAdd now n
    | none =>
      match (if pyContains "week" low then firstNum t.data else none) with
      | some n => relAdd now (7 * n)
      | none =>
        match (if pyContains "month" low then firstNum t.data else none) with
        | some n => relAdd now (30 * n)
        | none => DateParse.nodate

theorem parse_date_check1 :
    parse_date 100000 " in 30 days " = DateParse.date 100030 := by decide

theorem parse_date_check2 :
    parse_date 100000 "2 weeks" = DateParse.date 100014 := by decide

theorem parse_date_check3 :
    parse_date 100000 "3 months" = DateParse.date 100090 := by decide

theorem parse_date_check4 :
    parse_date 100000 "today" = DateParse.nodate := by decide

/-! ## Data model (`index.py` dataclasses) -/

/-- The `{'valid': bool, 'message': str}` dicts returned by
`_validate_step_response`. -/
structure ValidationResult where
  valid : Bool
  message : String
deriving DecidableEq, Repr

/-- Dataclass `MarketCreationStep`. -/
structure MarketCreationStep where
  step_number : Nat
  step_name : String
  prompt : String
  user_input : Option String := none
  ai_suggestion : Option String := none
  validation_result : Option ValidationResult := none
deriving DecidableEq, Repr

/-- Dataclass `MarketProposal`.  `end_date` is a day ordinal; float fields
are exact rationals; `description` collapses Python's `None` and `""`
(which the source only distinguishes through truthiness, where they
agree). -/
structure MarketProposal where
  id : String
  description : String
  end_date : Int
  category : String
  resolution_criteria : String
  ai_probability : ℚ
  ai_confidence : ℚ
  key_factors : List String
  risk_factors : List String
  data_quality_score : ℚ
  creation_steps : List MarketCreationStep
  status : String := "draft"
  user_id : Option String := none
deriving DecidableEq, Repr

/-- The result dicts returned by the workflow methods.  Python returns
dicts with varying key sets; keys absent from a given return are the
defaults here. -/
structure ProposalSummary where
  id : String
  description : String
  end_date : String
  resolution_criteria : String
  category : String
  probability : String
  confidence : String
  key_factors : List String
  risk_factors : List String
  recommendation : String
deriving DecidableEq, Repr

structure WorkflowResult where
  success : Bool
  message : String := ""
  suggestions : List String := []
  session_id : Option String := none
  current_step : Option Nat := none
  prompt : Option String := none
  ai_suggestion : Option String := none
  progress : String := ""
  retry_prompt : Option String := none
  proposal : Option ProposalSummary := none
  ready_to_create : Bool := false
deriving DecidableEq, Repr

/-- The `active_sessions` dict (`session_id -> MarketProposal`). -/
abbrev Sessions := List (String × MarketProposal)

def lookupS : Sessions → String → Option MarketProposal
  | [], _ => none
  | (k, v) :: t, sid => if k = sid then some v else lookupS t sid

/-- `self.active_sessions[session_id] = proposal` (replace or append). -/
def insertS : Sessions → String → MarketProposal → Sessions
  | [], sid, p => [(sid, p)]
  | (k, v) :: t, sid, p =>
    if k = sid then (sid, p) :: t else (k, v) :: insertS t sid p

theorem lookupS_insertS_self (S : Sessions) (sid : String) (p : MarketProposal) :
    lookupS (insertS S sid p) sid = some p := by
  induction S with
  | nil => simp [insertS, lookupS]
  | cons kv t ih =>
    obtain ⟨k, v⟩ := kv
    by_cases hk : k = sid
    · simp [insertS, hk, lookupS]
    · simp [insertS, hk, lookupS, ih]

/-! ## Percentage formatting (`f"{x:.1%}"`) and recommendation strings

Rational constants that kernel evaluation must reach are written with
`mkRat` (Batteries marks the `Rat` arithmetic operations irreducible,
which blocks kernel reduction of `+ * / -` on `ℚ`); the formatter below
works on `num`/`den` directly for the same reason. -/

/-- `f"{q:.1%}"` for a non-negative rational: value in tenths of a
percent, rounded half-to-even (Python float formatting rounding, applied
here to the exact rational). -/
def fmtPct1 (q : ℚ) : String :=
  let a : Int := q.num * 1000
  let b : Int := (q.den : Int)
  let f : Int := a / b
  let r2 : Int := 2 * (a - f * b)
  let t : Int :=
    if r2 < b then f else if r2 > b then f + 1 else if f % 2 = 0 then f else f + 1
  let n : Nat := t.toNat
  natToStr (n / 10) ++ "." ++ natToStr (n % 10) ++ "%"

theorem fmtPct1_check1 : fmtPct1 (mkRat 13 20) = "65.0%" := by decide

theorem fmtPct1_check2 : fmtPct1 (mkRat 3 4) = "75.0%" := by decide

/-- `1 - q` for `q ∈ [0, 1]`, built without `Rat.sub` so that it kernel-
reduces. -/
def oneMinus (q : ℚ) : ℚ := mkRat ((q.den : Int) - q.num) q.den

theorem oneMinus_check : oneMinus (mkRat 13 20) = mkRat 7 20 := by decide

/-- `MarketCreationWorkflow._generate_recommendation`. -/
def generate_recommendation (p : MarketProposal) : String :=
  if p.ai_confidence < mkRat 3 5 then
    "⚠️ Moderate confidence prediction. Consider additional research before betting."
  else if p.ai_probability > mkRat 7 10 then
    "📈 AI predicts high likelihood of YES (" ++ fmtPct1 p.ai_probability ++ ")"
  else if p.ai_probability < mkRat 3 10 then
    "📉 AI predicts high likelihood of NO (" ++ fmtPct1 (oneMinus p.ai_probability) ++ ")"
  else
    "⚖️ Balanced prediction - genuine uncertainty makes this interesting"

/-! ## `MarketCreationWorkflow` step logic -/

/-- The step-2 shortcut in `_validate_step_response`:
`any(word in response.lower() for word in ['day', 'week', 'month', 'year'])`. -/
def containsUnitWord (r : String) : Bool :=
  ["day", "week", "month", "year"].any fun w => pyContains w (pyLowerS r)

/-- The confirmation keyword list checked at `final_review`. -/
def confirmWords : List String := ["confirm", "yes", "proceed", "create"]

/-- `MarketCreationWorkflow._validate_step_response`.  `now` feeds
`_parse_date`; the `try`/`except` around the timeframe branch catches the
`OverflowError` a huge relative duration raises inside `_parse_date`. -/
def validate_step_response (now : Int) (st : MarketCreationStep) (r : String) :
    ValidationResult :=
  if st.step_name = "question_clarification" then
    if pyStripS r = "" then
      ⟨false, "Please provide a question for your market."⟩
    else if pyContains "?" r = false then
      ⟨false, "Please format as a Yes/No question ending with ?"⟩
    else ⟨true, "Question looks good!"⟩
  else if st.step_name = "timeframe" then
    if containsUnitWord r then ⟨true, "Timeframe accepted."⟩
    else
      match parse_date now r with
      | DateParse.date d => ⟨true, "Market will resolve on " ++ formatBdY d⟩
      | DateParse.nodate =>
        ⟨false, "Please provide a clearer timeframe (e.g., \"in 30 days\", \"by December 2026\", \"January 15, 2025\")"⟩
      | DateParse.overflow => ⟨false, "Please provide a valid timeframe."⟩
  else if st.step_name = "resolution_criteria" then
    if (pyStripS r).data.length < 10 then
      ⟨false, "Please provide more detailed resolution criteria."⟩
    else ⟨true, "Resolution criteria accepted."⟩
  else if st.step_name = "final_review" then
    if confirmWords.contains (pyStripS (pyLowerS r)) then
      ⟨true, "Confirmed! Creating your market..."⟩
    else ⟨true, "Please specify changes or type \"confirm\" to proceed."⟩
  else ⟨true, "Input accepted."⟩

/-- `MarketCreationWorkflow._update_proposal_from_step`.  Returns `none`
when the uncaught `OverflowError` of `_parse_date` escapes (timeframe
step only). -/
def update_proposal_from_step (now : Int) (p : MarketProposal)
    (st : MarketCreationStep) (r : String) : Option MarketProposal :=
  if st.step_name = "question_clarification" then
    some { p with description := pyStripS r }
  else if st.step_name = "timeframe" then
    match parse_date now r with
    | DateParse.date d => some { p with end_date := d }
    | DateParse.nodate => some p
    | DateParse.overflow => none
  else if st.step_name = "resolution_criteria" then
    some { p with resolution_criteria := pyStripS r }
  else some p

/-- `MarketCreationWorkflow._determine_next_step`, in the deterministic
(no-OpenAI) configuration: the step-3 AI suggestion is the criteria of
`AIMarketAssistant._fallback_resolution_criteria`.  `ctxTimeframe` is
`context.get('timeframe')` (always falsy on the paths exercised: `start`
builds step 1, `continue` passes `{}`). -/
def determine_next_step (p : MarketProposal) (ctxTimeframe : Option String) :
    MarketCreationStep :=
  let stepNum := p.creation_steps.length + 1
  if stepNum = 1 then
    { step_number := 1
      step_name := "question_clarification"
      prompt := "Let's refine your prediction question. Please provide a clear Yes/No question about a future event."
      ai_suggestion := some (if p.description ≠ "" then p.description
        else "Will [specific event] happen by [specific date]?") }
  else if stepNum = 2 then
    { step_number := 2
      step_name := "timeframe"
      prompt := "When should this market resolve? Please provide a specific date or timeframe."
      ai_suggestion := some (match ctxTimeframe with
        | none => "30 days from now"
        | some t => if t = "" then "30 days from now" else t) }
  else if stepNum = 3 then
    { step_number := 3
      step_name := "resolution_criteria"
      prompt := "How should this market be resolved? What sources should we check to determine the outcome?"
      ai_suggestion := some ("Will be resolved based on official announcements and major news sources regarding: "
        ++ p.description) }
  else
    { step_number := 4
      step_name := "final_review"
      prompt := "Please review the market details. Type 'confirm' to proceed with creation, or suggest any changes."
      ai_suggestion := some "Everything looks good! Ready to create your market." }

/-- `MarketCreationWorkflow._finalize_market_proposal`: fills the fixed
analysis values, builds the success dict (the source formats `end_date`
with `strftime('%Y-%m-%d')` and the probabilities with `:.1%`), and
returns it together with the mutated proposal (the caller then sets
`status = "ready"`). -/
def finalize_market_proposal (p : MarketProposal) : WorkflowResult × MarketProposal :=
  let p1 := { p with
    ai_probability := mkRat 13 20
    ai_confidence := mkRat 3 4
    key_factors := ["Historical precedent", "Current trends", "Expert opinions"]
    risk_factors := ["Unexpected events", "Policy changes"]
    data_quality_score := mkRat 4 5 }
  ({ success := true
     message := "Market proposal ready for creation!"
     proposal := some
       { id := p1.id
         description := p1.description
         end_date := formatYMD p1.end_date
         resolution_criteria := p1.resolution_criteria
         category := p1.category
         probability := fmtPct1 p1.ai_probability
         confidence := fmtPct1 p1.ai_confidence
         key_factors := p1.key_factors
         risk_factors := p1.risk_factors
         recommendation := generate_recommendation p1 }
     ready_to_create := true
     session_id := some p1.id }, p1)

/-! ## Intent analysis (`AIMarketAssistant._fallback_intent_analysis`) -/

/-- The analysis dict produced by `analyze_user_intent` (whether by the
OpenAI call or by the keyword fallback). -/
structure IntentAnalysis where
  intent : String
  confidence : ℚ
  extracted_event : Option String := none
  suggested_question : Option String := none
  category : String := "general"
  timeframe : Option String := none
  missing_info : List String := []
  next_step : String := ""
  reasoning : String := ""
deriving DecidableEq, Repr

/-- `AIMarketAssistant._categorize_simple` (applied to the lowercased
message). -/
def categorize_simple (text : String) : String :=
  if ["election", "vote", "president", "congress", "senate", "doj",
      "republican", "democrat"].any (fun w => pyContains w text) then "politics"
  else if ["stock", "market", "economy", "inflation", "fed", "gdp", "bitcoin",
      "crypto"].any (fun w => pyContains w text) then "economics"
  else if ["game", "sport", "team", "championship", "player"].any
      (fun w => pyContains w text) then "sports"
  else if ["tech", "ai", "software", "app", "startup"].any
      (fun w => pyContains w text) then "technology"
  else "general"

/-- Index of the first `'?'`, if any. -/
def idxOfQmark : List Char → Option Nat
  | [] => none
  | c :: t => if c = '?' then some 0 else (idxOfQmark t).map (· + 1)

/-- The lazy group `([^?]+?)(\?|$)`: smallest non-empty run of
non-`'?'` characters ending at a `'?'` or at end of string. -/
def lazySeg (l : List Char) : Option (List Char) :=
  match l with
  | [] => none
  | _ :: _ =>
    match idxOfQmark l with
    | some 0 => none
    | some p => some (l.take p)
    | none => some l

/-- Backtracking over the greedy `\s+`: try the longest whitespace run
first, then shorter ones. -/
def tryWsRun (l : List Char) : Nat → Option (List Char)
  | 0 => none
  | w + 1 =>
    match lazySeg (l.drop (w + 1)) with
    | some g => some g
    | none => tryWsRun l w

/-- Match `will\s+([^?]+?)(\?|$)` anchored at the head of `l`
(lowercased input). -/
def matchWillAt (l : List Char) : Option (List Char) :=
  match l with
  | 'w' :: 'i' :: 'l' :: 'l' :: rest =>
    tryWsRun rest (rest.takeWhile isPyWs).length
  | _ => none

/-- `re.search(r'will\s+([^?]+?)(\?|$)', message_lower)`: leftmost match,
returning group 1. -/
def searchWill : List Char → Option (List Char)
  | [] => none
  | c :: t =>
    match matchWillAt (c :: t) with
    | some g => some g
    | none => searchWill t

/-- `AIMarketAssistant._fallback_intent_analysis`. -/
def fallback_intent_analysis (msg : String) : IntentAnalysis :=
  let low := pyLowerS msg
  let hasIntent := ["will", "bet", "predict", "market", "odds", "happen",
    "occur"].any fun w => pyContains w low
  let ev : Option String := (searchWill low.data).map fun g => pyStripS ⟨g⟩
  let evTruthy : Bool := ev.getD "" ≠ ""
  { intent := if hasIntent then "create_market" else "general_inquiry"
    confidence := if hasIntent then mkRat 7 10 else mkRat 3 10
    extracted_event := ev
    suggested_question := if evTruthy then some ("Will " ++ ev.getD "" ++ "?") else none
    category := categorize_simple low
    timeframe := none
    missing_info := if evTruthy then ["resolution_criteria", "timeframe"]
      else ["event_description"]
    next_step := "Please provide more details about the event and when it should be resolved."
    reasoning := "Simple keyword-based analysis" }

theorem fallback_intent_check1 :
    (fallback_intent_analysis "Will the Fed cut rates in March?").intent
      = "create_market"
    ∧ (fallback_intent_analysis "Will the Fed cut rates in March?").category
      = "economics"
    ∧ (fallback_intent_analysis "Will the Fed cut rates in March?").suggested_question
      = some "Will the fed cut rates in march?" := by decide

theorem fallback_intent_check2 :
    (fallback_intent_analysis "hello there").intent = "general_inquiry" := by decide

/-! ## `MarketCreationWorkflow.start_market_creation` and
`continue_market_creation` -/

/-- `MarketCreationWorkflow.start_market_creation`.  The session id (a
hash of the message and the current time in the source) and the intent
analysis (produced by the OpenAI call or the keyword fallback) are
passed explicitly.  `now` is the ordinal of `datetime.now()`. -/
def start_market_creation (now : Int) (sid : String) (a : IntentAnalysis)
    (uid : Option String) (S : Sessions) : WorkflowResult × Sessions :=
  if a.intent ≠ "create_market" then
    ({ success := false
       message := "I don't see a market creation request in your message. Try asking something like 'Will X happen by Y date?'"
       suggestions :=
         ["Will Bitcoin reach $200,000 by end of 2026?",
          "Will the next election have over 70% turnout?",
          "Will OpenAI release GPT-5 this year?"] }, S)
  else
    let p0 : MarketProposal :=
      { id := sid
        description := a.suggested_question.getD ""
        end_date := now + 30
        category := a.category
        resolution_criteria := ""
        ai_probability := mkRat 1 2
        ai_confidence := mkRat 0 1
        key_factors := []
        risk_factors := []
        data_quality_score := mkRat 0 1
        creation_steps := []
        status := "draft"
        user_id := uid }
    let st1 := determine_next_step p0 a.timeframe
    let p1 := { p0 with creation_steps := [st1] }
    ({ success := true
       session_id := some sid
       current_step := some st1.step_number
       prompt := some st1.prompt
       ai_suggestion := st1.ai_suggestion
       progress := "Step " ++ natToStr st1.step_number ++ " of 4" }, insertS S sid p1)

/-- `MarketCreationWorkflow.continue_market_creation`.  Returns `none`
when the Python code would raise an uncaught exception (empty step list,
or an `OverflowError` escaping `_update_proposal_from_step`), which
Flask surfaces as a 500 error.  Mirrors the source's order of effects:
the current (last) step's `user_input` / `validation_result` are written
before the validity check, so they are stored even for a rejected
response. -/
def continue_market_creation (now : Int) (S : Sessions) (sid r : String) :
    Option (WorkflowResult × Sessions) :=
  match lookupS S sid with
  | none =>
    some ({ success := false
            message := "Session not found. Please start a new market creation." }, S)
  | some p =>
    match p.creation_steps.getLast? with
    | none => none
    | some st =>
      let validation := validate_step_response now st r
      let st2 := { st with user_input := some r, validation_result := some validation }
      let steps2 := p.creation_steps.dropLast ++ [st2]
      if validation.valid = false then
        some ({ success := false
                message := validation.message
                retry_prompt := some st.prompt
                session_id := some sid },
          insertS S sid { p with creation_steps := steps2 })
      else
        match update_proposal_from_step now { p with creation_steps := steps2 } st r with
        | none => none
        | some p1 =>
          if st.step_number < 4 then
            let next := determine_next_step p1 none
            let p2 := { p1 with creation_steps := p1.creation_steps ++ [next] }
            some ({ success := true
                    session_id := some sid
                    current_step := some next.step_number
                    prompt := some next.prompt
                    ai_suggestion := next.ai_suggestion
                    progress := "Step " ++ natToStr next.step_number ++ " of 4" },
              insertS S sid p2)
          else
            let fin := finalize_market_proposal p1
            some (fin.1, insertS S sid { fin.2 with status := "ready" })

/-! ## `SimplePredictiveModel.predict_probability`

This definition is allowed to use the (irreducible) `Rat` arithmetic:
its claim is settled by order lemmas, not kernel evaluation.  Python
computes the same values with binary floats; the rationals here are the
exact counterparts. -/

structure PredictOut where
  probability : ℚ
  confidence : ℚ
  key_factors : List String
  risk_factors : List String
  data_quality_score : ℚ
deriving Repr

set_option linter.unusedVariables false in
/-- `SimplePredictiveModel.predict_probability` (the `features` argument
is accepted and ignored, as in the source). -/
def predict_probability (description category : String)
    (features : Option (List (String × String)) := none) : PredictOut :=
  let descLower := pyLowerS description
  let pc0 : ℚ × ℚ := (1 / 2, 3 / 5)
  let pc1 : ℚ × ℚ :=
    if ["will", "likely", "expected"].any (fun w => pyContains w descLower) then
      (pc0.1 + 1 / 10, pc0.2 + 1 / 10)
    else pc0
  let pc2 : ℚ × ℚ :=
    if ["bitcoin", "crypto"].any (fun w => pyContains w descLower) then
      ((2 : ℚ) / 5, (1 : ℚ) / 2)
    else pc1
  let conf : ℚ := if category = "politics" then max (2 / 5) (pc2.2 - 1 / 10) else pc2.2
  { probability := min (19 / 20) (max (1 / 20) pc2.1)
    confidence := min (9 / 10) (max (3 / 10) conf)
    key_factors := ["Historical precedent analysis", "Current market sentiment",
      "Expert opinion trends"]
    risk_factors := ["Unexpected events could change outcome",
      "Limited historical data for this type of event"]
    data_quality_score := conf }

/-! ## JSON parsing (`json.loads`, as used by `deploy.py`)

A recursive-descent parser for the JSON accepted by Python's
`json.loads` with default options: RFC 8259 syntax plus the Python
extensions `NaN` / `Infinity` / `-Infinity`; strings reject raw control
characters; objects keep the last value for a duplicated key; numbers
are modelled as exact rationals (Python converts them to binary floats).
A `\uXXXX` escape that is a lone surrogate is kept by Python as a lone
surrogate code unit, which Lean's `Char` cannot represent; it is mapped
to NUL here (no claim exercises this corner). -/

inductive JVal where
  | jnull
  | jbool (b : Bool)
  | jnum (q : ℚ)
  | jnan
  | jinf (neg : Bool)
  | jstr (s : String)
  | jarr (xs : List JVal)
  | jobj (kvs : List (String × JVal))
deriving Repr

/-- JSON insignificant whitespace. -/
def isJWs (c : Char) : Bool := c = ' ' || c = '\t' || c = '\n' || c = '\r'

def hexVal (c : Char) : Option Nat :=
  if c.isDigit then some (c.toNat - 48)
  else if 'a' ≤ c ∧ c ≤ 'f' then some (c.toNat - 87)
  else if 'A' ≤ c ∧ c ≤ 'F' then some (c.toNat - 55)
  else none

def hex4 : List Char → Option (Nat × List Char)
  | a :: b :: c :: d :: r =>
    match hexVal a, hexVal b, hexVal c, hexVal d with
    | some x, some y, some z, some w =>
      some (4096 * x + 256 * y + 16 * z + w, r)
    | _, _, _, _ => none
  | _ => none

/-- JSON string body (after the opening quote), fuel-based. -/
def pJStr : Nat → List Char → List Char → Option (String × List Char)
  | 0, _, _ => none
  | fuel + 1, acc, l =>
    match l with
    | [] => none
    | '"' :: r => some (⟨acc.reverse⟩, r)
    | '\\' :: e :: r =>
      match e with
      | '"' => pJStr fuel ('"' :: acc) r
      | '\\' => pJStr fuel ('\\' :: acc) r
      | '/' => pJStr fuel ('/' :: acc) r
      | 'b' => pJStr fuel ('\x08' :: acc) r
      | 'f' => pJStr fuel ('\x0c' :: acc) r
      | 'n' => pJStr fuel ('\n' :: acc) r
      | 'r' => pJStr fuel ('\r' :: acc) r
      | 't' => pJStr fuel ('\t' :: acc) r
      | 'u' =>
        match hex4 r with
        | none => none
        | some (v, r2) =>
          if 0xd800 ≤ v ∧ v < 0xdc00 then
            match r2 with
            | '\\' :: 'u' :: r3 =>
              match hex4 r3 with
              | some (w, r4) =>
                if 0xdc00 ≤ w ∧ w < 0xe000 then
                  pJStr fuel
                    (Char.ofNat (0x10000 + (v - 0xd800) * 1024 + (w - 0xdc00)) :: acc) r4
                else pJStr fuel (Char.ofNat v :: acc) r2
              | none => pJStr fuel (Char.ofNat v :: acc) r2
            | _ => pJStr fuel (Char.ofNat v :: acc) r2
          else pJStr fuel (Char.ofNat v :: acc) r2
      | _ => none
    | c :: r => if c.toNat < 0x20 then none else pJStr fuel (c :: acc) r

/-- Integer part of a JSON number: `0` or a nonzero digit followed by
digits. -/
def pJInt : List Char → Option (Nat × List Char)
  | '0' :: r => some (0, r)
  | c :: r =>
    if c.isDigit then
      let run := (c :: r).takeWhile Char.isDigit
      some (run.foldl (fun acc d => 10 * acc + (d.toNat - 48)) 0,
        (c :: r).dropWhile Char.isDigit)
    else none
  | [] => none

/-- One-or-more digit run. -/
def pJDigits : List Char → Option (Nat × Nat × List Char)
  | c :: r =>
    if c.isDigit then
      let run := (c :: r).takeWhile Char.isDigit
      some (run.foldl (fun acc d => 10 * acc + (d.toNat - 48)) 0, run.length,
        (c :: r).dropWhile Char.isDigit)
    else none
  | [] => none

/-- Fraction part: `.` must be followed by at least one digit
(`"5."` is rejected by `json.loads`). -/
def pJFrac : List Char → Option (Nat × Nat × List Char)
  | '.' :: r => pJDigits r
  | l => some (0, 0, l)

/-- Exponent part: `e`/`E` with optional sign must be followed by at
least one digit. -/
def pJExp (l : List Char) : Option (Int × List Char) :=
  match l with
  | 'e' :: '+' :: r | 'E' :: '+' :: r =>
    (pJDigits r).map fun v => ((v.1 : Int), v.2.2)
  | 'e' :: '-' :: r | 'E' :: '-' :: r =>
    (pJDigits r).map fun v => (-(v.1 : Int), v.2.2)
  | 'e' :: r | 'E' :: r =>
    (pJDigits r).map fun v => ((v.1 : Int), v.2.2)
  | _ => some (0, l)

/-- JSON number (including the Python-accepted `NaN` / `Infinity`
literals).  The value is assembled with a single `mkRat` so that it
kernel-reduces. -/
def pJNum (l : List Char) : Option (JVal × List Char) :=
  match l with
  | 'N' :: 'a' :: 'N' :: r => some (JVal.jnan, r)
  | 'I' :: 'n' :: 'f' :: 'i' :: 'n' :: 'i' :: 't' :: 'y' :: r =>
    some (JVal.jinf false, r)
  | '-' :: 'I' :: 'n' :: 'f' :: 'i' :: 'n' :: 'i' :: 't' :: 'y' :: r =>
    some (JVal.jinf true, r)
  | _ =>
    let (neg, l1) : Bool × List Char :=
      match l with
      | '-' :: r => (true, r)
      | _ => (false, l)
    match pJInt l1 with
    | none => none
    | some (ip, l2) =>
      match pJFrac l2 with
      | none => none
      | some (fr, fd, l3) =>
        match pJExp l3 with
        | none => none
        | some (ex, l4) =>
          let mant : Int := (ip : Int) * ((10 ^ fd : Nat) : Int) + (fr : Int)
          let mant2 : Int := if neg then -mant else mant
          let e2 : Int := ex - (fd : Int)
          let q : ℚ :=
            if e2 ≥ 0 then mkRat (mant2 * ((10 ^ e2.toNat : Nat) : Int)) 1
            else mkRat mant2 (10 ^ (-e2).toNat)
          some (JVal.jnum q, l4)

/-- Insert with replace (Python `dict` semantics for duplicate keys). -/
def dictInsert (kvs : List (String × JVal)) (k : String) (v : JVal) :
    List (String × JVal) :=
  match kvs with
  | [] => [(k, v)]
  | (k0, v0) :: t => if k0 = k then (k, v) :: t else (k0, v0) :: dictInsert t k v

def dictOfPairs (ps : List (String × JVal)) : List (String × JVal) :=
  ps.foldl (fun acc kv => dictInsert acc kv.1 kv.2) []

mutual

def pJVal : Nat → List Char → Option (JVal × List Char)
  | 0, _ => none
  | fuel + 1, l =>
    match l with
    | 'n' :: 'u' :: 'l' :: 'l' :: r => some (JVal.jnull, r)
    | 't' :: 'r' :: 'u' :: 'e' :: r => some (JVal.jbool true, r)
    | 'f' :: 'a' :: 'l' :: 's' :: 'e' :: r => some (JVal.jbool false, r)
    | '"' :: r => (pJStr (r.length + 1) [] r).map fun sv => (JVal.jstr sv.1, sv.2)
    | '[' :: r =>
      match r.dropWhile isJWs with
      | ']' :: r2 => some (JVal.jarr [], r2)
      | r1 => (pJItems fuel r1).map fun xs => (JVal.jarr xs.1, xs.2)
    | '{' :: r =>
      match r.dropWhile isJWs with
      | '}' :: r2 => some (JVal.jobj [], r2)
      | r1 => (pJPairs fuel r1).map fun ps => (JVal.jobj (dictOfPairs ps.1), ps.2)
    | _ => pJNum l
termination_by structural fuel => fuel

def pJItems : Nat → List Char → Option (List JVal × List Char)
  | 0, _ => none
  | fuel + 1, l => do
    let (v, r1) ← pJVal fuel l
    match r1.dropWhile isJWs with
    | ',' :: r3 => do
      let (xs, r4) ← pJItems fuel (r3.dropWhile isJWs)
      pure (v :: xs, r4)
    | ']' :: r3 => pure ([v], r3)
    | _ => none
termination_by structural fuel => fuel

def pJPairs : Nat → List Char → Option (List (String × JVal) × List Char)
  | 0, _ => none
  | fuel + 1, l =>
    match l with
    | '"' :: r => do
      let (k, r1) ← pJStr (r.length + 1) [] r
      match r1.dropWhile isJWs with
      | ':' :: r3 => do
        let (v, r4) ← pJVal fuel (r3.dropWhile isJWs)
        match r4.dropWhile isJWs with
        | ',' :: r6 => do
          let (kvs, r7) ← pJPairs fuel (r6.dropWhile isJWs)
          pure ((k, v) :: kvs, r7)
        | '}' :: r6 => pure ([(k, v)], r6)
        | _ => none
      | _ => none
    | _ => none
termination_by structural fuel => fuel

end

/-- `json.loads`: parse a complete document (leading/trailing whitespace
allowed, nothing else may remain). -/
def parseJ (s : String) : Option JVal :=
  match pJVal (s.data.length + 1) (s.data.dropWhile isJWs) with
  | some (v, rest) => if rest.dropWhile isJWs = [] then some v else none
  | none => none

/-- `s` parses as JSON. -/
def jsonValid (s : String) : Bool := (parseJ s).isSome

def ratOfJ : JVal → Option ℚ
  | JVal.jnum q => some q
  | _ => none

def strOfJ : JVal → Option String
  | JVal.jstr s => some s
  | _ => none

theorem parseJ_check1 :
    (parseJ " [1, 2.5, \"a\", \x7b\"k\": true, \"k\": null\x7d] ").isSome = true := by decide

theorem parseJ_check2 : (parseJ "01").isNone = true := by decide

theorem parseJ_check3 : (parseJ "not json").isNone = true := by decide

theorem parseJ_check4 :
    ((parseJ "\x7b\"a\": 1e2\x7d").bind fun v =>
      match v with
      | JVal.jobj kvs => (kvs.lookup "a").bind ratOfJ
      | _ => none) = some (mkRat 100 1) := by decide

theorem parseJ_check5 : (parseJ "[1,]").isNone = true := by decide

theorem parseJ_check6 : (parseJ "\"a\\u00e9\"").bind strOfJ = some "aé" := by decide

/-! ## `deploy.py`: `AIMarketAssistant.generate_prediction_markets` -/

/-- Python `s.startswith(pre)`. -/
def pyStartsWith (s pre : String) : Bool := isPre pre.data s.data

/-- Python `s.endswith(suf)`. -/
def pyEndsWith (s suf : String) : Bool := isPre suf.data.reverse s.data.reverse

/-- Python `s[n:]`. -/
def pyDrop (s : String) (n : Nat) : String := ⟨s.data.drop n⟩

/-- Python `s[:-n]`. -/
def pyDropRight (s : String) (n : Nat) : String :=
  ⟨s.data.take (s.data.length - n)⟩

/-- The response clean-up in `generate_prediction_markets`:
strip, drop a leading ```` ```json ````, drop a trailing ```` ``` ````,
strip again. -/
def repairContent (content : String) : String :=
  let c1 := pyStripS content
  let c2 := if pyStartsWith c1 "```json" then pyDrop c1 7 else c1
  let c3 := if pyEndsWith c2 "```" then pyDropRight c2 3 else c2
  pyStripS c3

theorem repairContent_check1 :
    repairContent " ```json\n[1]\n``` " = "[1]" := by decide

theorem repairContent_check2 : repairContent "\x7b\"a\": 1\x7d" = "\x7b\"a\": 1\x7d" := by decide

/-- Dataclass `MarketSuggestion` (deploy.py).  Python dataclasses do not
enforce their type annotations, and `MarketSuggestion(**data)` stores
whatever JSON values were supplied, so every field is a `JVal` here. -/
structure MarketSuggestion where
  title : JVal
  question : JVal
  description : JVal
  context : JVal
  resolution_criteria : JVal
  sources : JVal
  end_date : JVal
  category : JVal
  ai_probability : JVal
  confidence : JVal
  sentiment_score : JVal
  key_factors : JVal
deriving Repr

/-- The exact keyword set `MarketSuggestion(**data)` requires: all twelve
fields, and nothing else (`TypeError` otherwise). -/
def suggestionKeys : List String :=
  ["title", "question", "description", "context", "resolution_criteria",
   "sources", "end_date", "category", "ai_probability", "confidence",
   "sentiment_score", "key_factors"]

def lookupKV (kvs : List (String × JVal)) (k : String) : Option JVal :=
  match kvs with
  | [] => none
  | (k0, v) :: t => if k0 = k then some v else lookupKV t k

/-- `MarketSuggestion(**data)` for one parsed JSON object (`kvs` is
duplicate-free, coming out of `dictOfPairs`). -/
def suggestionOfObj : JVal → Option MarketSuggestion
  | JVal.jobj kvs =>
    if kvs.length = 12 ∧ suggestionKeys.all (fun k => (lookupKV kvs k).isSome) then
      some
        { title := (lookupKV kvs "title").getD JVal.jnull
          question := (lookupKV kvs "question").getD JVal.jnull
          description := (lookupKV kvs "description").getD JVal.jnull
          context := (lookupKV kvs "context").getD JVal.jnull
          resolution_criteria := (lookupKV kvs "resolution_criteria").getD JVal.jnull
          sources := (lookupKV kvs "sources").getD JVal.jnull
          end_date := (lookupKV kvs "end_date").getD JVal.jnull
          category := (lookupKV kvs "category").getD JVal.jnull
          ai_probability := (lookupKV kvs "ai_probability").getD JVal.jnull
          confidence := (lookupKV kvs "confidence").getD JVal.jnull
          sentiment_score := (lookupKV kvs "sentiment_score").getD JVal.jnull
          key_factors := (lookupKV kvs "key_factors").getD JVal.jnull }
    else none
  | _ => none

/-- `[MarketSuggestion(**data) for data in suggestions_data]`: iterating
a JSON array builds a suggestion per element; iterating a non-empty
string or dict yields strings, on which `**` raises `TypeError` (caught
by the caller); an empty string or dict yields `[]`; any other value is
not iterable (`TypeError`). -/
def suggestionsOfJson : JVal → Option (List MarketSuggestion)
  | JVal.jarr xs => xs.mapM suggestionOfObj
  | JVal.jstr s => if s = "" then some [] else none
  | JVal.jobj kvs => if kvs.isEmpty then some [] else none
  | _ => none

/-- Parse + convert pipeline of the `try` block (everything after the
response text is available); `none` models any exception, which the
caller turns into the fallback. -/
def parseSuggestions (t : String) : Option (List MarketSuggestion) :=
  (parseJ (repairContent t)).bind suggestionsOfJson

/-- `AIMarketAssistant._fallback_suggestions` (deploy.py).  `now` is the
ordinal of `datetime.now()`; `end_date` is `now + 60 days` formatted
`%d/%m/%Y`. -/
def fallback_suggestions (now : Int) (query : String) : List MarketSuggestion :=
  let ed := formatDMY (now + 60)
  [{ title := JVal.jstr ("Prediction market: " ++ query)
     question := JVal.jstr ("Will " ++ query ++ " happen by " ++ ed ++ "?")
     description := JVal.jstr ("A prediction market about whether " ++ query ++ " will occur.")
     context := JVal.jstr ("This market allows users to predict the likelihood of "
       ++ query ++ " happening within the specified timeframe.")
     resolution_criteria := JVal.jstr ("This market will resolve to YES if " ++ query
       ++ " occurs as described, based on reliable news sources and official announcements.")
     sources := JVal.jarr [JVal.jstr "Major news outlets", JVal.jstr "Official announcements"]
     end_date := JVal.jstr ed
     category := JVal.jstr "general"
     ai_probability := JVal.jnum (mkRat 1 2)
     confidence := JVal.jnum (mkRat 2 5)
     sentiment_score := JVal.jnum (mkRat 1 2)
     key_factors := JVal.jarr [JVal.jstr "Market conditions", JVal.jstr "Public interest",
       JVal.jstr "External factors"] }]

/-- `AIMarketAssistant.generate_prediction_markets` (deploy.py).  `resp`
is the Gemini response text, or `none` when the client is not configured
or the call raised; any exception in the parse/convert pipeline also
falls back. -/
def generate_prediction_markets (now : Int) (resp : Option String)
    (query : String) : List MarketSuggestion :=
  match resp with
  | none => fallback_suggestions now query
  | some t =>
    match parseSuggestions t with
    | some l => l
    | none => fallback_suggestions now query

/-! ## Concrete runs used by the counterexamples and witnesses

A scenario-B style session: the workflow is started from the message
`"Will the Fed cut rates in March?"` (classified by the keyword
fallback), on 2025-10-12, with session id `"s1"`. -/

def demoNow : Int := toOrdinal 2025 10 12

def dummyStep : MarketCreationStep :=
  { step_number := 0, step_name := "", prompt := "" }

def dummyProposal : MarketProposal :=
  { id := "", description := "", end_date := 0, category := ""
    resolution_criteria := "", ai_probability := mkRat 0 1
    ai_confidence := mkRat 0 1, key_factors := [], risk_factors := []
    data_quality_score := mkRat 0 1, creation_steps := [] }

def dummyOut : WorkflowResult × Sessions := ({ success := false }, [])

def demoAnalysis : IntentAnalysis :=
  fallback_intent_analysis "Will the Fed cut rates in March?"

/-- Sessions table right after `start_market_creation`. -/
def demoS0 : Sessions :=
  (start_market_creation demoNow "s1" demoAnalysis none []).2

def demoP0 : MarketProposal := (lookupS demoS0 "s1").getD dummyProposal

def demoStep1 : MarketCreationStep := demoP0.creation_steps.getLast?.getD dummyStep

/-- After a valid step-1 answer. -/
def demoAfterQ : WorkflowResult × Sessions :=
  (continue_market_creation demoNow demoS0 "s1"
    "Will the Fed cut rates by March 2026?").getD dummyOut

def demoP1 : MarketProposal := (lookupS demoAfterQ.2 "s1").getD dummyProposal

def demoTfStep : MarketCreationStep := demoP1.creation_steps.getLast?.getD dummyStep

/-- After a valid step-2 answer (`"30 days"`). -/
def demoAfterTf : WorkflowResult × Sessions :=
  (continue_market_creation demoNow demoAfterQ.2 "s1" "30 days").getD dummyOut

/-- After a valid step-3 answer. -/
def demoAfterRc : WorkflowResult × Sessions :=
  (continue_market_creation demoNow demoAfterTf.2 "s1"
    "Official Federal Reserve FOMC statements and press releases.").getD dummyOut

def demoFinalStep : MarketCreationStep :=
  ((lookupS demoAfterRc.2 "s1").getD dummyProposal).creation_steps.getLast?.getD dummyStep

/-- Step 4 answered with something that is not a confirmation keyword. -/
def demoAfterFinal : WorkflowResult × Sessions :=
  (continue_market_creation demoNow demoAfterRc.2 "s1"
    "please shorten the question").getD dummyOut

/-- An invalid step-1 answer (`"banana"`, no question mark) from the
fresh session. -/
def demoAfterBanana : WorkflowResult × Sessions :=
  (continue_market_creation demoNow demoS0 "s1" "banana").getD dummyOut

/-- A valid step-1 answer given after the invalid one. -/
def demoAfterBananaGood : WorkflowResult × Sessions :=
  (continue_market_creation demoNow demoAfterBanana.2 "s1"
    "Will it rain tomorrow?").getD dummyOut

/-- An invalid step-2 answer from the session that already passed step 1. -/
def demoTfBad : WorkflowResult × Sessions :=
  (continue_market_creation demoNow demoAfterQ.2 "s1" "banana").getD dummyOut

def demoPTfBad : MarketProposal := (lookupS demoTfBad.2 "s1").getD dummyProposal

/-- A step-2 answer that parses to a date in the past. -/
def demoAfterPastDate : WorkflowResult × Sessions :=
  (continue_market_creation demoNow demoAfterQ.2 "s1" "2020-01-01").getD dummyOut

theorem demo_check1 : demoAnalysis.intent = "create_market" := by decide

theorem demo_check2 : demoStep1.step_name = "question_clarification" := by decide

theorem demo_check3 :
    demoTfStep.step_name = "timeframe" ∧ demoAfterQ.1.success = true := by decide

theorem demo_check4 :
    demoFinalStep.step_name = "final_review" ∧ demoFinalStep.step_number = 4 := by decide

/-! ## Claims -/

/-- C1: for every workflow session and user response, if the current
step's validation rejects the response then `continue_market_creation`
returns a non-success result carrying the rejection message and a
re-prompt of the same step, the session's current step number is
unchanged, and no new `MarketCreationStep` is appended to the proposal's
step list. -/
theorem claim_C1_invalid_response_reprompts (now : Int) (S : Sessions)
    (sid r : String) (p : MarketProposal) (st : MarketCreationStep)
    (h1 : lookupS S sid = some p)
    (h2 : p.creation_steps.getLast? = some st)
    (h3 : (validate_step_response now st r).valid = false) :
    ∃ p2, continue_market_creation now S sid r
        = some ({ success := false
                  message := (validate_step_response now st r).message
                  retry_prompt := some st.prompt
                  session_id := some sid }, insertS S sid p2)
      ∧ p2.creation_steps.length = p.creation_steps.length
      ∧ (p2.creation_steps.getLast?).map (fun s => s.step_number)
          = some st.step_number := by
  have hne : p.creation_steps ≠ [] := by
    intro h
    rw [h] at h2
    simp [List.getLast?] at h2
  refine ⟨{ p with creation_steps := p.creation_steps.dropLast ++
      [{ st with
          user_input := some r
          validation_result := some (validate_step_response now st r) }] },
    ?_, ?_, ?_⟩
  · simp only [continue_market_creation, h1, h2, h3, if_true]
  · have := List.length_dropLast p.creation_steps
    simp only [List.length_append, this, List.length_cons, List.length_nil]
    have hpos : 0 < p.creation_steps.length := List.length_pos.mpr hne
    omega
  · simp [List.getLast?_concat]

/-- C1 witness: a fresh session answered `"banana"` at step 1. -/
theorem claim_C1_witness :
    lookupS demoS0 "s1" = some demoP0
    ∧ demoP0.creation_steps.getLast? = some demoStep1
    ∧ (validate_step_response demoNow demoStep1 "banana").valid = false
    ∧ ∃ p2, continue_market_creation demoNow demoS0 "s1" "banana"
        = some ({ success := false
                  message := (validate_step_response demoNow demoStep1 "banana").message
                  retry_prompt := some demoStep1.prompt
                  session_id := some "s1" }, insertS demoS0 "s1" p2)
      ∧ p2.creation_steps.length = demoP0.creation_steps.length
      ∧ (p2.creation_steps.getLast?).map (fun s => s.step_number)
          = some demoStep1.step_number :=
  ⟨by decide, by decide, by decide,
    claim_C1_invalid_response_reprompts demoNow demoS0 "s1" "banana" demoP0
      demoStep1 (by decide) (by decide) (by decide)⟩

/-- C10: continuing with an unknown session id returns `success = false`
with the "Session not found" message and leaves the session table
untouched. -/
theorem claim_C10_unknown_session (now : Int) (S : Sessions) (sid r : String)
    (h : lookupS S sid = none) :
    continue_market_creation now S sid r
      = some ({ success := false
                message := "Session not found. Please start a new market creation." },
          S) := by
  simp only [continue_market_creation, h]

/-- C10 witness: an empty session table. -/
theorem claim_C10_witness :
    lookupS [] "nope" = none
    ∧ continue_market_creation demoNow [] "nope" "anything"
        = some ({ success := false
                  message := "Session not found. Please start a new market creation." },
            []) :=
  ⟨by decide, claim_C10_unknown_session demoNow [] "nope" "anything" (by decide)⟩

/-- C8: if the analyzed intent is not `create_market`,
`start_market_creation` refuses: it returns a non-success result with a
non-empty list of example prompts, and the session table is unchanged
(no session is created). -/
theorem claim_C8_non_create_intent_refused (now : Int) (sid : String)
    (a : IntentAnalysis) (uid : Option String) (S : Sessions)
    (h : a.intent ≠ "create_market") :
    (start_market_creation now sid a uid S).1.success = false
    ∧ (start_market_creation now sid a uid S).1.suggestions ≠ []
    ∧ (start_market_creation now sid a uid S).2 = S := by
  simp [start_market_creation, h]

/-- C8 witness: the keyword fallback classifies `"hello there"` as a
general inquiry. -/
theorem claim_C8_witness :
    (fallback_intent_analysis "hello there").intent ≠ "create_market"
    ∧ (start_market_creation demoNow "s9" (fallback_intent_analysis "hello there")
        none []).1.success = false
    ∧ (start_market_creation demoNow "s9" (fallback_intent_analysis "hello there")
        none []).1.suggestions ≠ []
    ∧ (start_market_creation demoNow "s9" (fallback_intent_analysis "hello there")
        none []).2 = [] :=
  ⟨by decide,
    (claim_C8_non_create_intent_refused demoNow "s9"
      (fallback_intent_analysis "hello there") none [] (by decide)).1,
    (claim_C8_non_create_intent_refused demoNow "s9"
      (fallback_intent_analysis "hello there") none [] (by decide)).2.1,
    (claim_C8_non_create_intent_refused demoNow "s9"
      (fallback_intent_analysis "hello there") none [] (by decide)).2.2⟩

/-- C7: for every description, category and optional feature map,
`predict_probability` returns a probability in `[0.05, 0.95]` and a
confidence in `[0.3, 0.9]`. -/
theorem claim_C7_prediction_bounds (description category : String)
    (features : Option (List (String × String))) :
    1 / 20 ≤ (predict_probability description category features).probability
    ∧ (predict_probability description category features).probability ≤ 19 / 20
    ∧ 3 / 10 ≤ (predict_probability description category features).confidence
    ∧ (predict_probability description category features).confidence ≤ 9 / 10 := by
  unfold predict_probability
  refine ⟨?_, ?_, ?_, ?_⟩
  · exact le_min (by norm_num) (le_max_left _ _)
  · exact min_le_left _ _
  · exact le_min (by norm_num) (le_max_left _ _)
  · exact min_le_left _ _

/-- C3: at `final_review` (step 4) validation accepts every response,
but finalization does **not** depend on the response being one of
`confirm` / `yes` / `proceed` / `create`: the non-confirmation response
`"please shorten the question"` still yields a success result with
`ready_to_create = true` and marks the stored proposal `ready`, where
the claim (and the workflow's own prompt, "Type 'confirm' to proceed")
say the proposal should be held for edits. -/
theorem claim_C3_nonconfirm_still_finalizes :
    confirmWords.contains (pyStripS (pyLowerS "please shorten the question")) = false
    ∧ (validate_step_response demoNow demoFinalStep "please shorten the question").valid
        = true
    ∧ demoAfterFinal.1.success = true
    ∧ demoAfterFinal.1.ready_to_create = true
    ∧ (lookupS demoAfterFinal.2 "s1").map (fun p => p.status) = some "ready" := by
  decide

/-- Structural fact used by C2/C5: `_update_proposal_from_step` never
touches the step list. -/
theorem update_preserves_steps {now : Int} {p p1 : MarketProposal}
    {st : MarketCreationStep} {r : String}
    (h : update_proposal_from_step now p st r = some p1) :
    p1.creation_steps = p.creation_steps := by
  unfold update_proposal_from_step at h
  split at h
  · simp only [Option.some.injEq] at h; subst h; rfl
  · split at h
    · split at h
      · simp only [Option.some.injEq] at h; subst h; rfl
      · simp only [Option.some.injEq] at h; subst h; rfl
      · simp at h
    · split at h
      · simp only [Option.some.injEq] at h; subst h; rfl
      · simp only [Option.some.injEq] at h; subst h; rfl

/-- Taking all but the last of the original steps is unaffected by
replacing the last step and appending. -/
theorem take_pred_dropLast_append (l rest : List MarketCreationStep) :
    (l.dropLast ++ rest).take (l.length - 1) = l.take (l.length - 1) := by
  have h1 : l.dropLast.length = l.length - 1 := List.length_dropLast l
  calc (l.dropLast ++ rest).take (l.length - 1)
      = (l.dropLast ++ rest).take l.dropLast.length := by rw [h1]
    _ = l.dropLast := List.take_left _ _
    _ = l.take (l.length - 1) := by rw [List.dropLast_eq_take]

/-- C2 counterexample: in a live session at the timeframe step, the
answer `"2020-01-01"` is accepted (the call succeeds and advances) and
the stored proposal's `end_date` becomes 2020-01-01 — strictly in the
past, so not later than the generation time plus any minimum horizon,
and not rewritten to a default. -/
theorem claim_C2_counterexample :
    demoAfterPastDate.1.success = true
    ∧ (lookupS demoAfterPastDate.2 "s1").map (fun p => p.end_date)
        = some (toOrdinal 2020 1 1)
    ∧ toOrdinal 2020 1 1 < demoNow := by decide

/-- C2 (amended): the timeframe step performs no minimum-horizon check:
whatever date `_parse_date` returns (even one in the past) becomes
`end_date`; an unparseable response leaves `end_date` at its prior value
— the default of session-start time + 30 days set by
`start_market_creation` — rather than rejecting the proposal; and the
deploy.py generator's fallback proposal uses now + 60 days. -/
theorem claim_C2_amended_no_horizon (now : Int) (p : MarketProposal)
    (st : MarketCreationStep) (r : String)
    (hst : st.step_name = "timeframe") :
    (∀ d, parse_date now r = DateParse.date d →
      update_proposal_from_step now p st r = some { p with end_date := d })
    ∧ (parse_date now r = DateParse.nodate →
      update_proposal_from_step now p st r = some p)
    ∧ (∀ sid a uid S, a.intent = "create_market" →
      (lookupS (start_market_creation now sid a uid S).2 sid).map
          (fun q => q.end_date)
        = some (now + 30))
    ∧ (∀ q, (fallback_suggestions now q).map (fun s => s.end_date)
        = [JVal.jstr (formatDMY (now + 60))]) := by
  refine ⟨?_, ?_, ?_, ?_⟩
  · intro d hd
    simp [update_proposal_from_step, hst, hd]
  · intro hd
    simp [update_proposal_from_step, hst, hd]
  · intro sid a uid S ha
    have hn : ¬(a.intent ≠ "create_market") := by simp [ha]
    simp [start_market_creation, hn, lookupS_insertS_self]
  · intro q
    rfl

/-- C2 witness: the amended statement applied to the past date. -/
theorem claim_C2_amended_witness :
    demoTfStep.step_name = "timeframe"
    ∧ parse_date demoNow "2020-01-01" = DateParse.date (toOrdinal 2020 1 1)
    ∧ update_proposal_from_step demoNow demoP1 demoTfStep "2020-01-01"
        = some { demoP1 with end_date := toOrdinal 2020 1 1 } :=
  ⟨by decide, by decide,
    (claim_C2_amended_no_horizon demoNow demoP1 demoTfStep "2020-01-01"
      (by decide)).1 (toOrdinal 2020 1 1) (by decide)⟩

/-- C5 counterexample: an invalid response writes the current step's
`user_input`, and the retry overwrites it — the field is assigned twice
in the session's lifetime. -/
theorem claim_C5_counterexample :
    (lookupS demoAfterBanana.2 "s1").map
        (fun p => p.creation_steps.map (fun s => s.user_input))
      = some [some "banana"]
    ∧ (lookupS demoAfterBananaGood.2 "s1").map
        (fun p => (p.creation_steps.map (fun s => s.user_input)).take 1)
      = some [some "Will it rain tomorrow?"] := by decide

/-- C5 (amended): `continue_market_creation` rewrites `user_input` /
`validation_result` of the **current** (last) step on every call — so a
rejected response followed by a retry overwrites them — but all earlier
(already validated) steps are immutable: every step except the last is
preserved by the call, and only on a validated response is the next step
appended. -/
theorem claim_C5_amended_earlier_steps_immutable (now : Int) (S : Sessions)
    (sid r : String) (p p2 : MarketProposal) (res : WorkflowResult)
    (S2 : Sessions)
    (h1 : lookupS S sid = some p)
    (h2 : continue_market_creation now S sid r = some (res, S2))
    (h3 : lookupS S2 sid = some p2) :
    p2.creation_steps.take (p.creation_steps.length - 1)
      = p.creation_steps.take (p.creation_steps.length - 1) := by
  simp only [continue_market_creation, h1] at h2
  cases hL : p.creation_steps.getLast? with
  | none => rw [hL] at h2; simp at h2
  | some st =>
    rw [hL] at h2
    simp only [] at h2
    by_cases hv : (validate_step_response now st r).valid = false
    · rw [if_pos hv] at h2
      simp only [Option.some.injEq, Prod.mk.injEq] at h2
      obtain ⟨-, hS2⟩ := h2
      rw [← hS2, lookupS_insertS_self] at h3
      simp only [Option.some.injEq] at h3
      subst h3
      exact take_pred_dropLast_append _ _
    · rw [if_neg hv] at h2
      cases hu : update_proposal_from_step now
          { p with creation_steps := p.creation_steps.dropLast ++
            [{ st with
                user_input := some r
                validation_result := some (validate_step_response now st r) }] }
          st r with
      | none => rw [hu] at h2; simp at h2
      | some p1 =>
        rw [hu] at h2
        simp only [] at h2
        have hsteps : p1.creation_steps = p.creation_steps.dropLast ++
            [{ st with
                user_input := some r
                validation_result := some (validate_step_response now st r) }] :=
          update_preserves_steps hu
        by_cases hlt : st.step_number < 4
        · rw [if_pos hlt] at h2
          simp only [Option.some.injEq, Prod.mk.injEq] at h2
          obtain ⟨-, hS2⟩ := h2
          rw [← hS2, lookupS_insertS_self] at h3
          simp only [Option.some.injEq] at h3
          subst h3
          simp only [hsteps, List.append_assoc]
          exact take_pred_dropLast_append _ _
        · rw [if_neg hlt] at h2
          simp only [Option.some.injEq, Prod.mk.injEq] at h2
          obtain ⟨-, hS2⟩ := h2
          rw [← hS2, lookupS_insertS_self] at h3
          simp only [Option.some.injEq] at h3
          subst h3
          have hfin : (finalize_market_proposal p1).2.creation_steps
              = p1.creation_steps := rfl
          simp only [hfin, hsteps]
          exact take_pred_dropLast_append _ _

/-- C5 witness: the session that passed step 1 keeps its completed step-1
record unchanged when the step-2 response `"banana"` is rejected. -/
theorem claim_C5_amended_witness :
    lookupS demoAfterQ.2 "s1" = some demoP1
    ∧ continue_market_creation demoNow demoAfterQ.2 "s1" "banana"
        = some (demoTfBad.1, demoTfBad.2)
    ∧ lookupS demoTfBad.2 "s1" = some demoPTfBad
    ∧ demoPTfBad.creation_steps.take (demoP1.creation_steps.length - 1)
        = demoP1.creation_steps.take (demoP1.creation_steps.length - 1) :=
  ⟨by decide, by decide, by decide,
    claim_C5_amended_earlier_steps_immutable demoNow demoAfterQ.2 "s1" "banana"
      demoP1 demoPTfBad demoTfBad.1 demoTfBad.2 (by decide) (by decide) (by decide)⟩

/-! ## C6: timeframe validation -/

/-- After a digit run and optional spaces, one of `day`/`week`/`month`
follows (case-insensitive; a plural `s` is covered by prefix matching). -/
def unitAfterDigits (l : List Char) : Bool :=
  let rest := (l.dropWhile Char.isDigit).dropWhile (fun c => c = ' ')
  let low := rest.map Char.toLower
  isPre "day".data low || isPre "week".data low || isPre "month".data low

def hasDurationAt : List Char → Bool
  | [] => false
  | c :: t => (c.isDigit && unitAfterDigits (c :: t)) || hasDurationAt t

/-- Spec-side predicate for the C6 claim, following the spec's words: a
relative-duration phrase is "a count of days/weeks/months"
(`"N days/weeks/months"`) — a number followed by one of those unit
words. -/
def specDurationPhrase (s : String) : Bool := hasDurationAt s.data

theorem specDurationPhrase_check1 : specDurationPhrase "30 days" = true := by decide

theorem specDurationPhrase_check2 : specDurationPhrase "2 weeks" = true := by decide

/-- C6 counterexample: `"yesterday"` is accepted by the step-2 validator
(it contains the substring `"day"`), yet it is neither a
relative-duration phrase (no count) nor an absolute date parseable in
any of the five accepted formats — so "accepts if and only if" fails. -/
theorem claim_C6_counterexample :
    demoTfStep.step_name = "timeframe"
    ∧ (validate_step_response demoNow demoTfStep "yesterday").valid = true
    ∧ specDurationPhrase "yesterday" = false
    ∧ (strptimeAny (pyStripS "yesterday")).isSome = false := by decide

/-- If the response contains none of the four unit substrings, the
relative branches of `_parse_date` cannot fire. -/
theorem parse_date_no_unit {now : Int} {r : String}
    (hu : containsUnitWord r = false) :
    parse_date now r = (match strptimeAny (pyStripS r) with
      | some d => DateParse.date d
      | none => DateParse.nodate) := by
  unfold parse_date
  cases hs : strptimeAny (pyStripS r) with
  | some d => simp [hs]
  | none =>
    simp only [containsUnitWord, List.any_eq_false, List.mem_cons,
      List.mem_singleton, Bool.not_eq_true, forall_eq_or_imp, forall_eq,
      List.not_mem_nil] at hu
    have hof : ∀ w : String, pyContains w (pyLowerS r) = false →
        pyContains w (pyLowerS (pyStripS r)) = false := by
      intro w hw
      cases hc : pyContains w (pyLowerS (pyStripS r)) with
      | false => rfl
      | true => rw [pyContains_lower_strip hc] at hw; exact hw
    simp [hs, hof "day" hu.1, hof "week" hu.2.1, hof "month" hu.2.2.1]

/-- C6 (amended): the step-2 validator accepts a response if and only if
its lowercase form contains one of the substrings `"day"`, `"week"`,
`"month"`, `"year"` (so e.g. `"yesterday"` passes), or the stripped
response parses in one of the five absolute `strptime` formats; any
other response is rejected with the format hint.  (A digit-counted
relative phrase always contains one of the unit substrings, so the first
disjunct absorbs `_parse_date`'s relative branches.) -/
theorem claim_C6_amended_accepts_iff (now : Int) (st : MarketCreationStep)
    (r : String) (h : st.step_name = "timeframe") :
    ((validate_step_response now st r).valid = true)
      ↔ (containsUnitWord r = true
         ∨ (strptimeAny (pyStripS r)).isSome = true) := by
  unfold validate_step_response
  rw [h]
  rw [if_neg (by decide), if_pos rfl]
  by_cases hu : containsUnitWord r = true
  · simp [hu]
  · have hu2 : containsUnitWord r = false := by simpa using hu
    rw [if_neg (by simp [hu2]), parse_date_no_unit hu2]
    cases hs : strptimeAny (pyStripS r) with
    | some d => simp [hs, hu2]
    | none => simp [hs, hu2]

/-- C6 witness: a parseable absolute date at the timeframe step. -/
theorem claim_C6_amended_witness :
    demoTfStep.step_name = "timeframe"
    ∧ (((validate_step_response demoNow demoTfStep "January 15, 2025").valid = true)
      ↔ (containsUnitWord "January 15, 2025" = true
         ∨ (strptimeAny (pyStripS "January 15, 2025")).isSome = true)) :=
  ⟨by decide,
    claim_C6_amended_accepts_iff demoNow demoTfStep "January 15, 2025" (by decide)⟩

/-! ## C9: repair idempotence -/

/-- C9 counterexample: `" [1]"` is already valid JSON with no code
fences, yet the repair strips the surrounding whitespace, so the string
is not returned unchanged. -/
theorem claim_C9_counterexample :
    jsonValid " [1]" = true
    ∧ pyStartsWith " [1]" "```json" = false
    ∧ pyEndsWith " [1]" "```" = false
    ∧ repairContent " [1]" ≠ " [1]" := by decide

set_option linter.unusedVariables false in
/-- C9 (amended): on a string that is already valid JSON, has no
surrounding code fences, **and carries no surrounding whitespace**, the
repair transformation is the identity, and the parse of the output
equals the parse of the input.  (Valid JSON with surrounding whitespace
is returned stripped instead — parse-equivalent but not unchanged.) -/
theorem claim_C9_amended_repair_identity (s : String)
    (hjson : jsonValid s = true)
    (hstrip : pyStripS s = s)
    (h1 : pyStartsWith s "```json" = false)
    (h2 : pyEndsWith s "```" = false) :
    repairContent s = s ∧ parseJ (repairContent s) = parseJ s := by
  have hr : repairContent s = s := by
    simp [repairContent, hstrip, h1, h2]
  exact ⟨hr, by rw [hr]⟩

/-- C9 witness: `"[1]"`. -/
theorem claim_C9_amended_witness :
    jsonValid "[1]" = true
    ∧ pyStripS "[1]" = "[1]"
    ∧ pyStartsWith "[1]" "```json" = false
    ∧ pyEndsWith "[1]" "```" = false
    ∧ repairContent "[1]" = "[1]" ∧ parseJ (repairContent "[1]") = parseJ "[1]" :=
  ⟨by decide, by decide, by decide, by decide,
    claim_C9_amended_repair_identity "[1]" (by decide) (by decide) (by decide)
      (by decide)⟩

/-! ## C4: deterministic fallback -/

/-- C4 counterexample: the fallback proposal's confidence is 0.4
(`mkRat 2 5`), not the claimed 0.3 (`mkRat 3 10`). -/
theorem claim_C4_counterexample :
    (generate_prediction_markets demoNow none "Will Bitcoin reach $100k?").map
        (fun s => ratOfJ s.confidence)
      = [some (mkRat 2 5)]
    ∧ mkRat 2 5 ≠ mkRat 3 10 := by decide

/-- C4 (amended): when the text-generation capability is unavailable
(`resp = none`) or the attempt fails (its output does not survive the
parse/convert pipeline), the generator returns exactly the one
deterministic fallback proposal, whose probability is 0.5, whose
confidence is **0.4**, and whose category is `"general"`. -/
theorem claim_C4_amended_fallback (now : Int) (q : String) (resp : Option String)
    (h : resp = none ∨ ∃ t, resp = some t ∧ (parseSuggestions t).isNone = true) :
    generate_prediction_markets now resp q = fallback_suggestions now q
    ∧ (generate_prediction_markets now resp q).length = 1
    ∧ (generate_prediction_markets now resp q).map
        (fun s => (ratOfJ s.ai_probability, ratOfJ s.confidence, strOfJ s.category))
      = [(some (mkRat 1 2), some (mkRat 2 5), some "general")] := by
  have hg : generate_prediction_markets now resp q = fallback_suggestions now q := by
    rcases h with h | ⟨t, ht, hn⟩
    · rw [h]; rfl
    · rw [ht]
      rw [Option.isNone_iff_eq_none] at hn
      show (match parseSuggestions t with
        | some l => l
        | none => fallback_suggestions now q) = fallback_suggestions now q
      rw [hn]
  refine ⟨hg, ?_, ?_⟩ <;> rw [hg] <;> rfl

/-- C4 witness: an unparseable reply. -/
theorem claim_C4_amended_witness :
    (parseSuggestions "oops").isNone = true
    ∧ generate_prediction_markets demoNow (some "oops") "Will Bitcoin reach $100k?"
        = fallback_suggestions demoNow "Will Bitcoin reach $100k?" :=
  ⟨by decide,
    (claim_C4_amended_fallback demoNow "Will Bitcoin reach $100k?" (some "oops")
      (Or.inr ⟨"oops", rfl, by decide⟩)).1⟩
